import Mathlib

/-!
# Verification of the EnergyTools heat-pump COP calculator

Shallow embedding of `calculate_realistic_cop` from `src/heat_pump.py`.

Numbers are modelled as exact rationals (`ℚ`): the Python code computes with
binary64 floats, and the idealised exact-arithmetic semantics is what the
specification's exact decimal values refer to.  Python's `/` on floats raises
`ZeroDivisionError` when the divisor is exactly zero (it does not return an
IEEE infinity), so the function is embedded as an `Except`-valued computation
whose error points are exactly the four division sites of the source, in
source order.
-/

/-- The one way the Python function can fail: a division with divisor `0.0`
raises `ZeroDivisionError`. -/
inductive PyError where
  | zeroDivisionError
deriving DecidableEq, Repr

/-- The twelve parameters of `calculate_realistic_cop`, with the source's
parameter names (spec §3 `CalculationInput`). -/
structure CalculationInput where
  T_outside_C : ℚ
  T_water_C : ℚ
  current_heat_load_kW : ℚ
  humidity : ℚ
  include_defrost : Bool
  include_parasitics : Bool
  system_efficiency : ℚ
  include_hex_penalty : Bool
  include_part_load : Bool
  delta_T_source : ℚ
  delta_T_sink : ℚ
  max_capacity_kW : ℚ
deriving DecidableEq, Repr

/-- The dictionary returned by `calculate_realistic_cop` (spec §3
`CalculationResult`), with the source's key names. -/
structure CalculationResult where
  cop : ℚ
  carnot_cop : ℚ
  raw_cop : ℚ
  defrost_penalty : ℚ
  inverter_correction : ℚ
  load_factor : ℚ
  T_evap : ℚ
  T_cond : ℚ
deriving DecidableEq, Repr

/-- Step 1–2 of the source: evaporator absolute temperature.
`T_outside_K - delta_T_source` when the heat-exchanger penalty is on,
`T_outside_K` otherwise (lines 26, 31–36). -/
def T_evap_K (inp : CalculationInput) : ℚ :=
  if inp.include_hex_penalty then inp.T_outside_C + 273.15 - inp.delta_T_source
  else inp.T_outside_C + 273.15

/-- Step 1–2 of the source: condenser absolute temperature.
`T_water_K + delta_T_sink` when the heat-exchanger penalty is on,
`T_water_K` otherwise (lines 27, 31–36). -/
def T_cond_K (inp : CalculationInput) : ℚ :=
  if inp.include_hex_penalty then inp.T_water_C + 273.15 + inp.delta_T_sink
  else inp.T_water_C + 273.15

/-- Step 3 (line 39): `carnot_cop = T_cond_K / (T_cond_K - T_evap_K)`. -/
def carnot_cop_val (inp : CalculationInput) : ℚ :=
  T_cond_K inp / (T_cond_K inp - T_evap_K inp)

/-- Step 5 (lines 45–51): the two-tier defrost conditional on outdoor
temperature and humidity.  Python's chained comparison `-2 <= T <= 3` is the
conjunction of the two comparisons. -/
def defrost_penalty_calc (T_outside_C humidity : ℚ) : ℚ :=
  if -2 ≤ T_outside_C ∧ T_outside_C ≤ 3 ∧ 60 < humidity then
    0.88 - 0.05 * ((humidity - 60) / 40)
  else if -5 ≤ T_outside_C ∧ T_outside_C ≤ 5 ∧ 70 < humidity then
    0.90
  else
    1.0

/-- The defrost penalty actually applied: `1.0` when `include_defrost` is
off (line 45 initialisation, line 46 guard). -/
def defrost_penalty_val (inp : CalculationInput) : ℚ :=
  if inp.include_defrost then defrost_penalty_calc inp.T_outside_C inp.humidity
  else 1.0

/-- Line 60: the raw (unclamped) load factor `current_heat_load_kW /
max_capacity_kW`.  This is also the value the source re-computes at line 86
for the returned `load_factor` field. -/
def load_factor_raw (inp : CalculationInput) : ℚ :=
  inp.current_heat_load_kW / inp.max_capacity_kW

/-- Line 66: the inverter efficiency polynomial
`(-0.8 * lf**2) + (0.8 * lf) + 0.8`. -/
def inverter_curve (lf : ℚ) : ℚ :=
  (-0.8 * lf ^ 2) + (0.8 * lf) + 0.8

/-- Lines 57–66: inverter correction, the polynomial applied to the load
factor clamped by `max(0.15, min(1.1, lf))` (line 61); `1.0` when
`include_part_load` is off (line 57). -/
def inverter_correction_val (inp : CalculationInput) : ℚ :=
  if inp.include_part_load then
    inverter_curve (max 0.15 (min 1.1 (load_factor_raw inp)))
  else 1.0

/-- Steps 4–6 (lines 42, 53, 68): `raw_cop` after system efficiency, the
defrost penalty and the inverter correction have been multiplied in, in
source order. -/
def raw_cop_val (inp : CalculationInput) : ℚ :=
  carnot_cop_val inp * (inp.system_efficiency / 100) * defrost_penalty_val inp
    * inverter_correction_val inp

/-- Step 7 (lines 71–78): parasitic loads.  When enabled and the heat load is
positive, `real_cop = load / (load / raw_cop + 0.150)`; otherwise
`real_cop = raw_cop`. -/
def real_cop_val (inp : CalculationInput) : ℚ :=
  if inp.include_parasitics ∧ 0 < inp.current_heat_load_kW then
    inp.current_heat_load_kW
      / (inp.current_heat_load_kW / raw_cop_val inp + 0.150)
  else raw_cop_val inp

/-- The returned dictionary (lines 80–89).  Note line 86: the returned
`load_factor` is the *unclamped* ratio when part-load is on, `1.0` when off;
line 85 returns `inverter_correction` (already `1.0` when part-load is off). -/
def mkResult (inp : CalculationInput) : CalculationResult :=
  { cop := real_cop_val inp
    carnot_cop := carnot_cop_val inp
    raw_cop := raw_cop_val inp
    defrost_penalty := defrost_penalty_val inp
    inverter_correction := inverter_correction_val inp
    load_factor := if inp.include_part_load then load_factor_raw inp else 1.0
    T_evap := T_evap_K inp - 273.15
    T_cond := T_cond_K inp - 273.15 }

/-- `calculate_realistic_cop` (lines 10–89) with Python's division-by-zero
exceptions made explicit.  The four guards are the four division sites, in
the order the source executes them: line 39 (`carnot_cop`), line 60
(`load_factor`, only reached when `include_part_load`), line 72
(`compressor_power_kW`, only reached when parasitics apply), and line 76
(`real_cop`). -/
def calculate_realistic_cop (inp : CalculationInput) :
    Except PyError CalculationResult :=
  if T_cond_K inp - T_evap_K inp = 0 then .error .zeroDivisionError
  else if inp.include_part_load ∧ inp.max_capacity_kW = 0 then
    .error .zeroDivisionError
  else if inp.include_parasitics ∧ 0 < inp.current_heat_load_kW then
    if raw_cop_val inp = 0 then .error .zeroDivisionError
    else if inp.current_heat_load_kW / raw_cop_val inp + 0.150 = 0 then
      .error .zeroDivisionError
    else .ok (mkResult inp)
  else .ok (mkResult inp)

/-- Any successful run returns exactly the record `mkResult inp`. -/
lemma ok_eq_mkResult {inp : CalculationInput} {r : CalculationResult}
    (h : calculate_realistic_cop inp = .ok r) : r = mkResult inp := by
  unfold calculate_realistic_cop at h
  split_ifs at h <;> simp_all

/-- Successful run under explicit branch conditions. -/
lemma ok_of_conditions {inp : CalculationInput}
    (h1 : T_cond_K inp - T_evap_K inp ≠ 0)
    (h2 : ¬(inp.include_part_load ∧ inp.max_capacity_kW = 0))
    (h3 : ¬(inp.include_parasitics ∧ 0 < inp.current_heat_load_kW)) :
    calculate_realistic_cop inp = .ok (mkResult inp) := by
  simp only [calculate_realistic_cop, if_neg h1, if_neg h2, if_neg h3]

/-- The defrost factor computed by the two-tier conditional never exceeds 1. -/
lemma defrost_penalty_calc_le_one (T h : ℚ) : defrost_penalty_calc T h ≤ 1 := by
  unfold defrost_penalty_calc
  split_ifs with h1 h2
  · have := h1.2.2
    nlinarith
  · norm_num
  · norm_num

/-- The defrost factor is positive whenever humidity is at most 100. -/
lemma defrost_penalty_calc_pos (T h : ℚ) (hh : h ≤ 100) :
    0 < defrost_penalty_calc T h := by
  unfold defrost_penalty_calc
  split_ifs with h1 h2
  · nlinarith
  · norm_num
  · norm_num

/-- The applied defrost penalty never exceeds 1 (it is 1 when the feature is
off). -/
lemma defrost_penalty_val_le_one (inp : CalculationInput) :
    defrost_penalty_val inp ≤ 1 := by
  unfold defrost_penalty_val
  split_ifs
  · exact defrost_penalty_calc_le_one _ _
  · norm_num

/-- The applied defrost penalty is positive whenever humidity is at most
100. -/
lemma defrost_penalty_val_pos (inp : CalculationInput)
    (hh : inp.humidity ≤ 100) : 0 < defrost_penalty_val inp := by
  unfold defrost_penalty_val
  split_ifs
  · exact defrost_penalty_calc_pos _ _ hh
  · norm_num

/-- The inverter polynomial never exceeds 1 (it equals `1 - 0.2*(2x-1)^2`). -/
lemma inverter_curve_le_one (x : ℚ) : inverter_curve x ≤ 1 := by
  unfold inverter_curve
  nlinarith [sq_nonneg (2 * x - 1)]

/-- On the clamp interval `[0.15, 1.1]` the inverter polynomial is at least
`0.712`, its value at the right endpoint. -/
lemma inverter_curve_ge (x : ℚ) (h1 : 0.15 ≤ x) (h2 : x ≤ 1.1) :
    0.712 ≤ inverter_curve x := by
  unfold inverter_curve
  have hx : (x - 1.1) * (x + 0.1) ≤ 0 :=
    mul_nonpos_of_nonpos_of_nonneg (by linarith) (by linarith)
  nlinarith [hx]

/-- The clamped load factor lies in `[0.15, 1.1]`. -/
lemma clamp_bounds (t : ℚ) :
    0.15 ≤ max 0.15 (min 1.1 t) ∧ max 0.15 (min 1.1 t) ≤ 1.1 :=
  ⟨le_max_left _ _, max_le (by norm_num) (min_le_left _ _)⟩

/-- The applied inverter correction never exceeds 1. -/
lemma inverter_correction_val_le_one (inp : CalculationInput) :
    inverter_correction_val inp ≤ 1 := by
  unfold inverter_correction_val
  split_ifs
  · exact inverter_curve_le_one _
  · norm_num

/-- When part-load is on, the applied inverter correction is at least
0.712. -/
lemma inverter_correction_val_ge (inp : CalculationInput)
    (h : inp.include_part_load = true) :
    0.712 ≤ inverter_correction_val inp := by
  unfold inverter_correction_val
  rw [if_pos h]
  exact inverter_curve_ge _ (clamp_bounds _).1 (clamp_bounds _).2

/-- The applied inverter correction is always positive. -/
lemma inverter_correction_val_pos (inp : CalculationInput) :
    0 < inverter_correction_val inp := by
  unfold inverter_correction_val
  split_ifs with h
  · have := inverter_curve_ge _ (clamp_bounds (load_factor_raw inp)).1
      (clamp_bounds (load_factor_raw inp)).2
    linarith
  · norm_num

/-- The default slider configuration of the app (outdoor 5 °C, water 45 °C,
load 6 kW, humidity 70 %, all features on, efficiency 50 %, lifts 7/4 °C,
capacity 14 kW); also the spec §8 end-to-end scenario. -/
def baseInput : CalculationInput :=
  { T_outside_C := 5, T_water_C := 45, current_heat_load_kW := 6,
    humidity := 70, include_defrost := true, include_parasitics := true,
    system_efficiency := 50, include_hex_penalty := true,
    include_part_load := true, delta_T_source := 7, delta_T_sink := 4,
    max_capacity_kW := 14 }

/-- A configuration satisfying every §3 field constraint whose condenser
temperature is below its evaporator temperature (hot outdoors, cold water),
so the Carnot value is negative. -/
def negCarnotInput : CalculationInput :=
  { baseInput with T_outside_C := 50, T_water_C := 0 }

/-- The input of `negCarnotInput` with parasitics switched off. -/
def noParaNegInput : CalculationInput :=
  { negCarnotInput with include_parasitics := false }

/-- A configuration whose condenser and evaporator temperatures coincide
exactly (heat-exchanger penalty off, outdoor and water temperature both
5 °C), so the Carnot division has divisor zero. -/
def degenerateInput : CalculationInput :=
  { baseInput with include_hex_penalty := false, T_water_C := 5 }

/-- The default configuration runs to completion. -/
lemma baseInput_ok :
    calculate_realistic_cop baseInput = .ok (mkResult baseInput) := by
  norm_num [calculate_realistic_cop, raw_cop_val, carnot_cop_val, T_cond_K,
    T_evap_K, defrost_penalty_val, defrost_penalty_calc,
    inverter_correction_val, inverter_curve, load_factor_raw, baseInput]

/-- Claim C1 counterexample: at a configuration with `condK = evapK` exactly
(heat-exchanger penalty off, outdoor = water = 5 °C) the function does not
return a result: the Carnot division raises `ZeroDivisionError`, because
Python float division by zero throws rather than producing an infinity. -/
theorem C1_counterexample :
    calculate_realistic_cop degenerateInput = .error .zeroDivisionError := by
  norm_num [calculate_realistic_cop, T_cond_K, T_evap_K, degenerateInput,
    baseInput]

/-- Claim C1 (amended): when `condK = evapK` exactly, the function raises
`ZeroDivisionError` instead of returning a result; when `condK < evapK`
strictly (with `condK > 0`, positive system efficiency, humidity at most
100, nonzero capacity, and the parasitic branch not taken), it returns a
result in which the negative `carnotCop` propagates to negative `rawCop`
and `cop`, without raising. -/
theorem C1_settled (inp : CalculationInput) :
    (T_cond_K inp - T_evap_K inp = 0 →
      calculate_realistic_cop inp = .error .zeroDivisionError)
    ∧ (T_cond_K inp < T_evap_K inp → 0 < T_cond_K inp →
      0 < inp.system_efficiency → inp.humidity ≤ 100 →
      inp.max_capacity_kW ≠ 0 →
      ¬(inp.include_parasitics ∧ 0 < inp.current_heat_load_kW) →
      calculate_realistic_cop inp = .ok (mkResult inp) ∧
        (mkResult inp).carnot_cop < 0 ∧ (mkResult inp).raw_cop < 0 ∧
        (mkResult inp).cop < 0) := by
  constructor
  · intro h
    simp only [calculate_realistic_cop, if_pos h]
  · intro hlt hpos heff hhum hcap hpar
    have hne : T_cond_K inp - T_evap_K inp ≠ 0 := (sub_neg.mpr hlt).ne
    have hcap2 : ¬(inp.include_part_load ∧ inp.max_capacity_kW = 0) :=
      fun hc => hcap hc.2
    have hc : carnot_cop_val inp < 0 :=
      div_neg_of_pos_of_neg hpos (sub_neg.mpr hlt)
    have he : 0 < inp.system_efficiency / 100 := by positivity
    have hd := defrost_penalty_val_pos inp hhum
    have hi := inverter_correction_val_pos inp
    have hr : raw_cop_val inp < 0 := by
      unfold raw_cop_val
      exact mul_neg_of_neg_of_pos
        (mul_neg_of_neg_of_pos (mul_neg_of_neg_of_pos hc he) hd) hi
    have hcop : real_cop_val inp = raw_cop_val inp := by
      unfold real_cop_val
      rw [if_neg hpar]
    refine ⟨ok_of_conditions hne hcap2 hpar, ?_, ?_, ?_⟩ <;>
      simp only [mkResult, hcop] <;> assumption

/-- Claim C1 witness: the degenerate-lift branch of `C1_settled` instantiated
at a concrete hot-outdoor / cold-water configuration with parasitics off. -/
theorem C1_witness :
    calculate_realistic_cop noParaNegInput = .ok (mkResult noParaNegInput) ∧
      (mkResult noParaNegInput).carnot_cop < 0 ∧
      (mkResult noParaNegInput).raw_cop < 0 ∧
      (mkResult noParaNegInput).cop < 0 :=
  (C1_settled noParaNegInput).2
    (by norm_num [T_cond_K, T_evap_K, noParaNegInput, negCarnotInput,
      baseInput])
    (by norm_num [T_cond_K, noParaNegInput, negCarnotInput, baseInput])
    (by norm_num [noParaNegInput, negCarnotInput, baseInput])
    (by norm_num [noParaNegInput, negCarnotInput, baseInput])
    (by norm_num [noParaNegInput, negCarnotInput, baseInput])
    (by norm_num [noParaNegInput, negCarnotInput, baseInput])

/-- The default configuration with zero heat demand. -/
def zeroLoadInput : CalculationInput :=
  { baseInput with current_heat_load_kW := 0 }

/-- Claim C2 counterexample: with part-load on and `heatLoadKW = 0`, the
returned `load_factor` field is the raw ratio `0/14 = 0`, not the clamped
value `0.15`: line 86 of the source re-computes the unclamped ratio for the
returned dictionary. -/
theorem C2_counterexample :
    calculate_realistic_cop zeroLoadInput = .ok (mkResult zeroLoadInput) ∧
      (mkResult zeroLoadInput).load_factor ≠
        max 0.15 (min 1.1 (zeroLoadInput.current_heat_load_kW /
          zeroLoadInput.max_capacity_kW)) := by
  constructor
  · norm_num [calculate_realistic_cop, T_cond_K, T_evap_K, zeroLoadInput,
      baseInput]
  · norm_num [mkResult, load_factor_raw, zeroLoadInput, baseInput]

/-- Claim C2 (amended): with part-load on, the returned `load_factor` field
is the unclamped ratio `heatLoadKW / maxCapacityKW`; the clamp to
`[0.15, 1.1]` is applied only to the internal value fed to the inverter
polynomial, which the returned `inverter_correction` reflects. -/
theorem C2_settled (inp : CalculationInput) (r : CalculationResult)
    (hpl : inp.include_part_load = true)
    (hok : calculate_realistic_cop inp = .ok r) :
    r.load_factor = inp.current_heat_load_kW / inp.max_capacity_kW ∧
      r.inverter_correction =
        inverter_curve (max 0.15 (min 1.1 (inp.current_heat_load_kW /
          inp.max_capacity_kW))) := by
  rw [ok_eq_mkResult hok]
  simp [mkResult, inverter_correction_val, load_factor_raw, hpl]

/-- Claim C2 witness: `C2_settled` instantiated at the default
configuration. -/
theorem C2_witness :
    (mkResult baseInput).load_factor =
        baseInput.current_heat_load_kW / baseInput.max_capacity_kW ∧
      (mkResult baseInput).inverter_correction =
        inverter_curve (max 0.15 (min 1.1 (baseInput.current_heat_load_kW /
          baseInput.max_capacity_kW))) :=
  C2_settled baseInput (mkResult baseInput) rfl baseInput_ok

/-- Claim C3 counterexample: at the spec §8 end-to-end scenario the returned
`inverter_correction` is `244/245 ≈ 0.9959`, which is not within `1e-3` of
the claimed `0.949`: the spec mis-evaluates the quadratic at load factor
`3/7`. -/
theorem C3_counterexample :
    calculate_realistic_cop baseInput = .ok (mkResult baseInput) ∧
      ¬(|(mkResult baseInput).inverter_correction - 0.949| ≤ 1 / 1000) := by
  refine ⟨baseInput_ok, ?_⟩
  have h : (mkResult baseInput).inverter_correction = 244 / 245 := by
    norm_num [mkResult, inverter_correction_val, inverter_curve,
      load_factor_raw, baseInput]
  rw [h, abs_le]
  intro hc
  have := hc.2
  norm_num at this

/-- Claim C3 (amended): the end-to-end scenario returns `T_evap = -2`,
`T_cond = 49`, `carnotCop ≈ 6.317`, `defrostPenalty = 1`, `loadFactor ≈
0.4286` as claimed, but `inverterCorrection ≈ 0.9959` (not 0.949),
`rawCop ≈ 3.1454` (not 2.998) and `cop ≈ 2.9161` (not 2.789), each within
`1e-3`. -/
theorem C3_settled :
    calculate_realistic_cop baseInput = .ok (mkResult baseInput) ∧
      (mkResult baseInput).T_evap = -2 ∧
      (mkResult baseInput).T_cond = 49 ∧
      |(mkResult baseInput).carnot_cop - 6.317| ≤ 1 / 1000 ∧
      (mkResult baseInput).defrost_penalty = 1 ∧
      |(mkResult baseInput).load_factor - 0.4286| ≤ 1 / 1000 ∧
      |(mkResult baseInput).inverter_correction - 0.9959| ≤ 1 / 1000 ∧
      |(mkResult baseInput).raw_cop - 3.1454| ≤ 1 / 1000 ∧
      |(mkResult baseInput).cop - 2.9161| ≤ 1 / 1000 := by
  refine ⟨baseInput_ok, ?_, ?_, ?_, ?_, ?_, ?_, ?_, ?_⟩ <;>
    norm_num [mkResult, real_cop_val, raw_cop_val, carnot_cop_val, T_cond_K,
      T_evap_K, defrost_penalty_val, defrost_penalty_calc,
      inverter_correction_val, inverter_curve, load_factor_raw, baseInput,
      abs_le]

/-- The hot-outdoor / cold-water configuration runs to completion. -/
lemma negCarnot_ok :
    calculate_realistic_cop negCarnotInput = .ok (mkResult negCarnotInput) := by
  norm_num [calculate_realistic_cop, raw_cop_val, carnot_cop_val, T_cond_K,
    T_evap_K, defrost_penalty_val, defrost_penalty_calc,
    inverter_correction_val, inverter_curve, load_factor_raw, negCarnotInput,
    baseInput]

/-- Claim C4 counterexample: `negCarnotInput` satisfies every §3 field
constraint and has `systemEfficiencyPct ≤ 100`, yet its `rawCop` (≈ -3.54)
exceeds its `carnotCop` (≈ -7.11): the multiplicative reductions move a
negative Carnot value towards zero. -/
theorem C4_counterexample :
    (0 ≤ negCarnotInput.humidity ∧ negCarnotInput.humidity ≤ 100) ∧
      0 ≤ negCarnotInput.delta_T_source ∧ 0 ≤ negCarnotInput.delta_T_sink ∧
      0 < negCarnotInput.current_heat_load_kW ∧
      0 < negCarnotInput.max_capacity_kW ∧
      negCarnotInput.system_efficiency ≤ 100 ∧
      calculate_realistic_cop negCarnotInput = .ok (mkResult negCarnotInput) ∧
      ¬((mkResult negCarnotInput).raw_cop ≤
        (mkResult negCarnotInput).carnot_cop) := by
  refine ⟨by norm_num [negCarnotInput, baseInput], by
    norm_num [negCarnotInput, baseInput], by
    norm_num [negCarnotInput, baseInput], by
    norm_num [negCarnotInput, baseInput], by
    norm_num [negCarnotInput, baseInput], by
    norm_num [negCarnotInput, baseInput], negCarnot_ok, ?_⟩
  norm_num [mkResult, raw_cop_val, carnot_cop_val, T_cond_K, T_evap_K,
    defrost_penalty_val, defrost_penalty_calc, inverter_correction_val,
    inverter_curve, load_factor_raw, negCarnotInput, baseInput]

/-- Claim C4 (amended): for every successful run satisfying the §3 field
constraints with `systemEfficiencyPct` in `[0, 100]` and a *nonnegative*
`carnotCop`, the returned `rawCop` is at most `carnotCop`. -/
theorem C4_settled (inp : CalculationInput) (r : CalculationResult)
    (hok : calculate_realistic_cop inp = .ok r)
    (hhum0 : 0 ≤ inp.humidity) (hhum : inp.humidity ≤ 100)
    (hdts : 0 ≤ inp.delta_T_source) (hdtk : 0 ≤ inp.delta_T_sink)
    (hload : 0 < inp.current_heat_load_kW)
    (hcapp : 0 < inp.max_capacity_kW)
    (heff0 : 0 ≤ inp.system_efficiency)
    (heff1 : inp.system_efficiency ≤ 100)
    (hcar : 0 ≤ r.carnot_cop) :
    r.raw_cop ≤ r.carnot_cop := by
  rw [ok_eq_mkResult hok] at hcar ⊢
  simp only [mkResult] at hcar ⊢
  have he1 : inp.system_efficiency / 100 ≤ 1 := by linarith
  have he0 : 0 ≤ inp.system_efficiency / 100 :=
    div_nonneg heff0 (by norm_num)
  have hd1 := defrost_penalty_val_le_one inp
  have hd0 : 0 ≤ defrost_penalty_val inp :=
    le_of_lt (defrost_penalty_val_pos inp hhum)
  have hi1 := inverter_correction_val_le_one inp
  have hi0 : 0 ≤ inverter_correction_val inp :=
    le_of_lt (inverter_correction_val_pos inp)
  unfold raw_cop_val
  have h1 : carnot_cop_val inp * (inp.system_efficiency / 100) ≤
      carnot_cop_val inp := mul_le_of_le_one_right hcar he1
  have h2 : carnot_cop_val inp * (inp.system_efficiency / 100) *
      defrost_penalty_val inp ≤
      carnot_cop_val inp * (inp.system_efficiency / 100) :=
    mul_le_of_le_one_right (mul_nonneg hcar he0) hd1
  have h3 : carnot_cop_val inp * (inp.system_efficiency / 100) *
      defrost_penalty_val inp * inverter_correction_val inp ≤
      carnot_cop_val inp * (inp.system_efficiency / 100) *
        defrost_penalty_val inp :=
    mul_le_of_le_one_right (mul_nonneg (mul_nonneg hcar he0) hd0) hi1
  linarith

/-- Claim C4 witness: `C4_settled` instantiated at the default
configuration, whose Carnot value `379/60` is nonnegative. -/
theorem C4_witness :
    (mkResult baseInput).raw_cop ≤ (mkResult baseInput).carnot_cop :=
  C4_settled baseInput (mkResult baseInput) baseInput_ok
    (by norm_num [baseInput]) (by norm_num [baseInput])
    (by norm_num [baseInput]) (by norm_num [baseInput])
    (by norm_num [baseInput]) (by norm_num [baseInput])
    (by norm_num [baseInput]) (by norm_num [baseInput])
    (by norm_num [mkResult, carnot_cop_val, T_cond_K, T_evap_K, baseInput])

/-- The default configuration with defrost and part-load both off. -/
def pureEfficiencyInput : CalculationInput :=
  { baseInput with include_defrost := false, include_part_load := false }

/-- The defrost-off, part-load-off configuration runs to completion. -/
lemma pureEfficiency_ok :
    calculate_realistic_cop pureEfficiencyInput =
      .ok (mkResult pureEfficiencyInput) := by
  norm_num [calculate_realistic_cop, raw_cop_val, carnot_cop_val, T_cond_K,
    T_evap_K, defrost_penalty_val, defrost_penalty_calc,
    inverter_correction_val, inverter_curve, load_factor_raw,
    pureEfficiencyInput, baseInput]

/-- Claim C5 counterexample: at `negCarnotInput` the returned `rawCop`
(≈ -3.54) strictly exceeds `carnotCop × (systemEfficiencyPct/100)`
(≈ -3.55), because the inverter correction moves the negative value towards
zero: the claimed inequality fails for this valid input. -/
theorem C5_counterexample :
    calculate_realistic_cop negCarnotInput = .ok (mkResult negCarnotInput) ∧
      ¬((mkResult negCarnotInput).raw_cop ≤
        (mkResult negCarnotInput).carnot_cop *
          (negCarnotInput.system_efficiency / 100)) := by
  refine ⟨negCarnot_ok, ?_⟩
  norm_num [mkResult, raw_cop_val, carnot_cop_val, T_cond_K, T_evap_K,
    defrost_penalty_val, defrost_penalty_calc, inverter_correction_val,
    inverter_curve, load_factor_raw, negCarnotInput, baseInput]

/-- Claim C5 (amended): for every successful run, if `carnotCop ×
(systemEfficiencyPct/100)` is nonnegative then `rawCop` is at most that
product; and with defrost and part-load both disabled, `rawCop` equals the
product exactly. -/
theorem C5_settled (inp : CalculationInput) (r : CalculationResult)
    (hok : calculate_realistic_cop inp = .ok r) :
    (0 ≤ r.carnot_cop * (inp.system_efficiency / 100) →
      r.raw_cop ≤ r.carnot_cop * (inp.system_efficiency / 100)) ∧
    (inp.include_defrost = false → inp.include_part_load = false →
      r.raw_cop = r.carnot_cop * (inp.system_efficiency / 100)) := by
  rw [ok_eq_mkResult hok]
  simp only [mkResult]
  constructor
  · intro h0
    have hd1 := defrost_penalty_val_le_one inp
    have hi1 := inverter_correction_val_le_one inp
    have hi0 : 0 ≤ inverter_correction_val inp :=
      le_of_lt (inverter_correction_val_pos inp)
    unfold raw_cop_val
    have h1 : carnot_cop_val inp * (inp.system_efficiency / 100) *
        defrost_penalty_val inp ≤
        carnot_cop_val inp * (inp.system_efficiency / 100) :=
      mul_le_of_le_one_right h0 hd1
    have h2 : carnot_cop_val inp * (inp.system_efficiency / 100) *
        defrost_penalty_val inp * inverter_correction_val inp ≤
        carnot_cop_val inp * (inp.system_efficiency / 100) *
          inverter_correction_val inp :=
      mul_le_mul_of_nonneg_right h1 hi0
    have h3 : carnot_cop_val inp * (inp.system_efficiency / 100) *
        inverter_correction_val inp ≤
        carnot_cop_val inp * (inp.system_efficiency / 100) :=
      mul_le_of_le_one_right h0 hi1
    linarith
  · intro hdf hpl
    unfold raw_cop_val defrost_penalty_val inverter_correction_val
    rw [hdf, hpl]
    norm_num

/-- Claim C5 witness: the inequality branch of `C5_settled` at the default
configuration and the exact-equality branch at the defrost-off,
part-load-off configuration. -/
theorem C5_witness :
    ((mkResult baseInput).raw_cop ≤
      (mkResult baseInput).carnot_cop * (baseInput.system_efficiency / 100)) ∧
    ((mkResult pureEfficiencyInput).raw_cop =
      (mkResult pureEfficiencyInput).carnot_cop *
        (pureEfficiencyInput.system_efficiency / 100)) :=
  ⟨(C5_settled baseInput (mkResult baseInput) baseInput_ok).1
      (by norm_num [mkResult, carnot_cop_val, T_cond_K, T_evap_K, baseInput]),
    (C5_settled pureEfficiencyInput (mkResult pureEfficiencyInput)
      pureEfficiency_ok).2 rfl rfl⟩

/-- The default configuration at outdoor 3 °C, humidity 65 %. -/
def defrostBand1Input : CalculationInput :=
  { baseInput with T_outside_C := 3, humidity := 65 }

/-- The default configuration at outdoor 4 °C, humidity 75 %. -/
def defrostBand2Input : CalculationInput :=
  { baseInput with T_outside_C := 4, humidity := 75 }

/-- The default configuration at outdoor 10 °C. -/
def defrostNoneInput : CalculationInput :=
  { baseInput with T_outside_C := 10 }

/-- The outdoor 3 °C, humidity 65 % configuration runs to completion. -/
lemma defrostBand1_ok :
    calculate_realistic_cop defrostBand1Input =
      .ok (mkResult defrostBand1Input) := by
  norm_num [calculate_realistic_cop, raw_cop_val, carnot_cop_val, T_cond_K,
    T_evap_K, defrost_penalty_val, defrost_penalty_calc,
    inverter_correction_val, inverter_curve, load_factor_raw,
    defrostBand1Input, baseInput]

/-- The outdoor 4 °C, humidity 75 % configuration runs to completion. -/
lemma defrostBand2_ok :
    calculate_realistic_cop defrostBand2Input =
      .ok (mkResult defrostBand2Input) := by
  norm_num [calculate_realistic_cop, raw_cop_val, carnot_cop_val, T_cond_K,
    T_evap_K, defrost_penalty_val, defrost_penalty_calc,
    inverter_correction_val, inverter_curve, load_factor_raw,
    defrostBand2Input, baseInput]

/-- The outdoor 10 °C configuration runs to completion. -/
lemma defrostNone_ok :
    calculate_realistic_cop defrostNoneInput =
      .ok (mkResult defrostNoneInput) := by
  norm_num [calculate_realistic_cop, raw_cop_val, carnot_cop_val, T_cond_K,
    T_evap_K, defrost_penalty_val, defrost_penalty_calc,
    inverter_correction_val, inverter_curve, load_factor_raw,
    defrostNoneInput, baseInput]

/-- Claim C6: with defrost on, the returned penalty takes the three exact
boundary values: `0.87375` at outdoor 3 °C and humidity 65 %, `0.90` at
outdoor 4 °C and humidity 75 % (first band misses, second fires), and `1.0`
at outdoor 10 °C (both bands miss). -/
theorem C6_boundary (inp : CalculationInput) (r : CalculationResult)
    (hdf : inp.include_defrost = true)
    (hok : calculate_realistic_cop inp = .ok r) :
    ((inp.T_outside_C = 3 ∧ inp.humidity = 65) →
      r.defrost_penalty = 0.87375) ∧
    ((inp.T_outside_C = 4 ∧ inp.humidity = 75) → r.defrost_penalty = 0.90) ∧
    (inp.T_outside_C = 10 → r.defrost_penalty = 1.0) := by
  rw [ok_eq_mkResult hok]
  simp only [mkResult, defrost_penalty_val, hdf, if_true]
  refine ⟨?_, ?_, ?_⟩
  · rintro ⟨hT, hH⟩
    rw [hT, hH]
    norm_num [defrost_penalty_calc]
  · rintro ⟨hT, hH⟩
    rw [hT, hH]
    norm_num [defrost_penalty_calc]
  · intro hT
    rw [hT]
    norm_num [defrost_penalty_calc]

/-- Claim C6 witness: the three boundary values of `C6_boundary` at the
three concrete configurations. -/
theorem C6_witness :
    (mkResult defrostBand1Input).defrost_penalty = 0.87375 ∧
      (mkResult defrostBand2Input).defrost_penalty = 0.90 ∧
      (mkResult defrostNoneInput).defrost_penalty = 1.0 :=
  ⟨(C6_boundary defrostBand1Input (mkResult defrostBand1Input) rfl
      defrostBand1_ok).1 ⟨rfl, rfl⟩,
    (C6_boundary defrostBand2Input (mkResult defrostBand2Input) rfl
      defrostBand2_ok).2.1 ⟨rfl, rfl⟩,
    (C6_boundary defrostNoneInput (mkResult defrostNoneInput) rfl
      defrostNone_ok).2.2 rfl⟩

/-- Claim C7: with defrost on, outdoor temperature in `[-2, 3]` and humidity
above 70, both bands could apply but the first, narrower band takes
precedence: the penalty is `0.88 - 0.05 × ((humidity - 60)/40)`, which is
never `0.90` there. -/
theorem C7_band_precedence (inp : CalculationInput) (r : CalculationResult)
    (hdf : inp.include_defrost = true)
    (hok : calculate_realistic_cop inp = .ok r)
    (hlo : -2 ≤ inp.T_outside_C) (hhi : inp.T_outside_C ≤ 3)
    (hh : 70 < inp.humidity) :
    r.defrost_penalty = 0.88 - 0.05 * ((inp.humidity - 60) / 40) ∧
      r.defrost_penalty ≠ 0.90 := by
  rw [ok_eq_mkResult hok]
  simp only [mkResult, defrost_penalty_val, hdf, if_true]
  have hcond : -2 ≤ inp.T_outside_C ∧ inp.T_outside_C ≤ 3 ∧
      60 < inp.humidity := ⟨hlo, hhi, by linarith⟩
  rw [defrost_penalty_calc, if_pos hcond]
  refine ⟨rfl, ?_⟩
  intro hc
  have : inp.humidity = 44 := by linarith
  linarith

/-- Claim C7 witness: `C7_band_precedence` at outdoor 0 °C, humidity 80 %,
where the penalty is `0.855`, not `0.90`. -/
theorem C7_witness :
    (mkResult { baseInput with T_outside_C := 0, humidity := 80
      }).defrost_penalty =
        0.88 - 0.05 * (((80 : ℚ) - 60) / 40) ∧
      (mkResult { baseInput with T_outside_C := 0, humidity := 80
        }).defrost_penalty ≠ 0.90 := by
  have h := C7_band_precedence
    { baseInput with T_outside_C := 0, humidity := 80 }
    (mkResult { baseInput with T_outside_C := 0, humidity := 80 }) rfl
    (by norm_num [calculate_realistic_cop, raw_cop_val, carnot_cop_val,
      T_cond_K, T_evap_K, defrost_penalty_val, defrost_penalty_calc,
      inverter_correction_val, inverter_curve, load_factor_raw, baseInput])
    (by norm_num [baseInput]) (by norm_num [baseInput])
    (by norm_num [baseInput])
  exact h

/-- Monotonicity core of the heat-exchanger comparison: raising the
condenser by `b ≥ 0` and lowering the evaporator by `a ≥ 0` cannot raise
the Carnot ratio, provided the source absolute temperature `e` is
nonnegative and both lifts are thermodynamically ordered. -/
lemma carnot_ratio_mono (c e a b : ℚ) (ha : 0 ≤ a) (hb : 0 ≤ b)
    (he : 0 ≤ e) (h1 : e < c) (h2 : e - a < c + b) :
    (c + b) / ((c + b) - (e - a)) ≤ c / (c - e) := by
  have hden1 : 0 < c - e := by linarith
  have hden2 : 0 < (c + b) - (e - a) := by linarith
  rw [div_le_div_iff₀ hden2 hden1]
  have hc0 : 0 ≤ c := by linarith
  nlinarith [mul_nonneg ha hc0, mul_nonneg hb he]

/-- A configuration whose outdoor absolute temperature is below 0 K
(outdoor -373.15 °C, water -263.15 °C), satisfying every hypothesis stated
by claim C8. -/
def subZeroInput : CalculationInput :=
  { baseInput with T_outside_C := -373.15, T_water_C := -263.15 }

/-- The sub-absolute-zero configuration with the heat-exchanger penalty
off. -/
def subZeroNoHexInput : CalculationInput :=
  { subZeroInput with include_hex_penalty := false }

/-- The sub-absolute-zero configuration runs to completion (penalty on). -/
lemma subZero_ok :
    calculate_realistic_cop subZeroInput = .ok (mkResult subZeroInput) := by
  norm_num [calculate_realistic_cop, raw_cop_val, carnot_cop_val, T_cond_K,
    T_evap_K, defrost_penalty_val, defrost_penalty_calc,
    inverter_correction_val, inverter_curve, load_factor_raw, subZeroInput,
    baseInput]

/-- The sub-absolute-zero configuration runs to completion (penalty off). -/
lemma subZeroNoHex_ok :
    calculate_realistic_cop subZeroNoHexInput =
      .ok (mkResult subZeroNoHexInput) := by
  norm_num [calculate_realistic_cop, raw_cop_val, carnot_cop_val, T_cond_K,
    T_evap_K, defrost_penalty_val, defrost_penalty_calc,
    inverter_correction_val, inverter_curve, load_factor_raw,
    subZeroNoHexInput, subZeroInput, baseInput]

/-- Claim C8 counterexample: at an outdoor absolute temperature below 0 K
the stated hypotheses all hold (`deltaTSourceC, deltaTSinkC ≥ 0`, `condK >
evapK` in both calls, inputs identical except the flag), yet the Carnot
value with the penalty off (`1/11`) is strictly *less* than with it on
(`14/121`). -/
theorem C8_counterexample :
    subZeroInput = { subZeroNoHexInput with include_hex_penalty := true } ∧
      0 ≤ subZeroNoHexInput.delta_T_source ∧
      0 ≤ subZeroNoHexInput.delta_T_sink ∧
      T_evap_K subZeroNoHexInput < T_cond_K subZeroNoHexInput ∧
      T_evap_K subZeroInput < T_cond_K subZeroInput ∧
      calculate_realistic_cop subZeroNoHexInput =
        .ok (mkResult subZeroNoHexInput) ∧
      calculate_realistic_cop subZeroInput = .ok (mkResult subZeroInput) ∧
      ¬((mkResult subZeroInput).carnot_cop ≤
        (mkResult subZeroNoHexInput).carnot_cop) := by
  refine ⟨rfl, by norm_num [subZeroNoHexInput, subZeroInput, baseInput], by
    norm_num [subZeroNoHexInput, subZeroInput, baseInput], by
    norm_num [T_evap_K, T_cond_K, subZeroNoHexInput, subZeroInput,
      baseInput], by
    norm_num [T_evap_K, T_cond_K, subZeroNoHexInput, subZeroInput,
      baseInput], subZeroNoHex_ok, subZero_ok, ?_⟩
  norm_num [mkResult, carnot_cop_val, T_cond_K, T_evap_K, subZeroNoHexInput,
    subZeroInput, baseInput]

/-- Claim C8 (amended): for two successful runs on identical inputs except
`includeHexPenalty`, with `deltaTSourceC, deltaTSinkC ≥ 0`, `condK > evapK`
in both, and the outdoor temperature at or above absolute zero
(`outdoorTempC ≥ -273.15`), the Carnot value with the penalty off is at
least the Carnot value with it on. -/
theorem C8_settled (inpF inpT : CalculationInput)
    (rF rT : CalculationResult)
    (hrel : inpT = { inpF with include_hex_penalty := true })
    (hflag : inpF.include_hex_penalty = false)
    (ha : 0 ≤ inpF.delta_T_source) (hb : 0 ≤ inpF.delta_T_sink)
    (habs : -273.15 ≤ inpF.T_outside_C)
    (hlF : T_evap_K inpF < T_cond_K inpF)
    (hlT : T_evap_K inpT < T_cond_K inpT)
    (hokF : calculate_realistic_cop inpF = .ok rF)
    (hokT : calculate_realistic_cop inpT = .ok rT) :
    rT.carnot_cop ≤ rF.carnot_cop := by
  rw [ok_eq_mkResult hokF, ok_eq_mkResult hokT]
  subst hrel
  simp only [mkResult, carnot_cop_val, T_evap_K, T_cond_K, hflag] at hlF hlT ⊢
  simp only [if_true, if_false, Bool.false_eq_true] at hlF hlT ⊢
  exact carnot_ratio_mono (inpF.T_water_C + 273.15)
    (inpF.T_outside_C + 273.15) inpF.delta_T_source inpF.delta_T_sink
    ha hb (by linarith) hlF hlT

/-- The default configuration with the heat-exchanger penalty off. -/
def noHexBaseInput : CalculationInput :=
  { baseInput with include_hex_penalty := false }

/-- The penalty-off default configuration runs to completion. -/
lemma noHexBase_ok :
    calculate_realistic_cop noHexBaseInput = .ok (mkResult noHexBaseInput) := by
  norm_num [calculate_realistic_cop, raw_cop_val, carnot_cop_val, T_cond_K,
    T_evap_K, defrost_penalty_val, defrost_penalty_calc,
    inverter_correction_val, inverter_curve, load_factor_raw, noHexBaseInput,
    baseInput]

/-- Claim C8 witness: `C8_settled` at the default configuration and its
penalty-off twin. -/
theorem C8_witness :
    (mkResult baseInput).carnot_cop ≤ (mkResult noHexBaseInput).carnot_cop :=
  C8_settled noHexBaseInput baseInput (mkResult noHexBaseInput)
    (mkResult baseInput) rfl rfl
    (by norm_num [noHexBaseInput, baseInput])
    (by norm_num [noHexBaseInput, baseInput])
    (by norm_num [noHexBaseInput, baseInput])
    (by norm_num [T_evap_K, T_cond_K, noHexBaseInput, baseInput])
    (by norm_num [T_evap_K, T_cond_K, noHexBaseInput, baseInput])
    noHexBase_ok baseInput_ok

/-- Claim C9: for every successful run with parasitics on, positive heat
load and positive `rawCop`, the final `cop` is strictly below `rawCop`
(the fixed 0.15 kW fan/pump draw adds input without adding output); with
parasitics off or nonpositive heat load, `cop` equals `rawCop` exactly. -/
theorem C9_parasitics (inp : CalculationInput) (r : CalculationResult)
    (hok : calculate_realistic_cop inp = .ok r) :
    (inp.include_parasitics = true → 0 < inp.current_heat_load_kW →
      0 < r.raw_cop → r.cop < r.raw_cop) ∧
    ((inp.include_parasitics = false ∨ inp.current_heat_load_kW ≤ 0) →
      r.cop = r.raw_cop) := by
  rw [ok_eq_mkResult hok]
  simp only [mkResult]
  constructor
  · intro hp hL hr
    unfold real_cop_val
    rw [if_pos ⟨hp, hL⟩]
    have hda : 0 < inp.current_heat_load_kW / raw_cop_val inp :=
      div_pos hL hr
    have hD : 0 < inp.current_heat_load_kW / raw_cop_val inp + 0.150 := by
      linarith
    rw [div_lt_iff₀ hD]
    have h2 : raw_cop_val inp *
        (inp.current_heat_load_kW / raw_cop_val inp) =
        inp.current_heat_load_kW := by
      field_simp
    nlinarith [h2, hr]
  · intro hcase
    unfold real_cop_val
    rw [if_neg]
    rintro ⟨hp, hL⟩
    rcases hcase with hcase | hcase
    · rw [hcase] at hp
      exact Bool.false_ne_true hp
    · linarith

/-- Claim C9 witness: `C9_parasitics` at the default configuration, where
`rawCop = 23119/7350 > 0`. -/
theorem C9_witness :
    (mkResult baseInput).cop < (mkResult baseInput).raw_cop :=
  (C9_parasitics baseInput (mkResult baseInput) baseInput_ok).1 rfl
    (by norm_num [baseInput])
    (by norm_num [mkResult, raw_cop_val, carnot_cop_val, T_cond_K, T_evap_K,
      defrost_penalty_val, defrost_penalty_calc, inverter_correction_val,
      inverter_curve, load_factor_raw, baseInput])

/-- Claim C10: for every successful run, the returned
`inverter_correction` lies in `[0.712, 1]` when part-load is on (the
extrema of the quadratic over the clamp range `[0.15, 1.1]`), and equals
exactly 1 when part-load is off. -/
theorem C10_inverter_range (inp : CalculationInput) (r : CalculationResult)
    (hok : calculate_realistic_cop inp = .ok r) :
    (inp.include_part_load = true →
      0.712 ≤ r.inverter_correction ∧ r.inverter_correction ≤ 1) ∧
    (inp.include_part_load = false → r.inverter_correction = 1) := by
  rw [ok_eq_mkResult hok]
  simp only [mkResult]
  constructor
  · intro hpl
    exact ⟨inverter_correction_val_ge inp hpl,
      inverter_correction_val_le_one inp⟩
  · intro hpl
    unfold inverter_correction_val
    rw [hpl]
    norm_num

/-- Claim C10 witness: `C10_inverter_range` at the default configuration,
where the correction is `244/245`. -/
theorem C10_witness :
    0.712 ≤ (mkResult baseInput).inverter_correction ∧
      (mkResult baseInput).inverter_correction ≤ 1 :=
  (C10_inverter_range baseInput (mkResult baseInput) baseInput_ok).1 rfl
